import Mathlib

set_option maxRecDepth 100000
set_option maxHeartbeats 1000000

/-!
Verification development for the `striver_eye` backend.

The Python sources under `api/` are shallowly embedded below: pure string and
regex manipulation becomes Lean functions on `List Char` / `String`, the
external services (database, language model, renderer, object storage) become
oracle fields of an environment structure, and fallible code returns `Except`.
Line references are to `api/router/get_illustration.py` and
`api/router/composio_tools.py`.
-/

/-! ### Character classes and basic string primitives -/

/-- The backtick character (code point 96). -/
def tick : Char := Char.ofNat 96

/-- ASCII word character, modelling the regex class `[A-Za-z0-9_]`.
(Python's `re` would additionally accept non-ASCII word characters; the code
only ever feeds it program text, and the ASCII model is used throughout.) -/
def isWordChar (c : Char) : Bool := c.isAlpha || c.isDigit || c = '_'

/-- Dotted-name character, modelling the regex class `[A-Za-z0-9_\.]`. -/
def isNameChar (c : Char) : Bool := c.isAlpha || c.isDigit || c = '_' || c = '.'

/-- Name-start character, modelling the regex class `[A-Za-z_]`. -/
def isNameStart (c : Char) : Bool := c.isAlpha || c = '_'

/-- Whitespace as matched by the regex class `\s`: the ASCII whitespace
characters plus the common Unicode separators Python recognises (the more
exotic Unicode space code points are not modelled). -/
def pyIsSpace (c : Char) : Bool :=
  c = ' ' || c = '\t' || c = '\n' || c = '\x0d' || c = '\x0b' || c = '\x0c' ||
  c = '\x1c' || c = '\x1d' || c = '\x1e' || c = '\x1f' || c = '\x85' ||
  c = '\xa0' || c = '\u2028' || c = '\u2029'

/-- Line-boundary characters recognised by Python `str.splitlines`. -/
def isLineBreak (c : Char) : Bool :=
  c = '\n' || c = '\x0d' || c = '\x0b' || c = '\x0c' ||
  c = '\x1c' || c = '\x1d' || c = '\x1e' || c = '\x85' || c = '\u2028' || c = '\u2029'

/-- `pfx pat l`: `pat` is a prefix of `l` (by character comparison). -/
def pfx : List Char → List Char → Bool
  | [], _ => true
  | _ :: _, [] => false
  | a :: as, b :: bs => a = b && pfx as bs

/-- `hasSub pat l`: `pat` occurs as a contiguous run inside `l`; models
Python's substring test `pat in s`. -/
def hasSub (pat : List Char) : List Char → Bool
  | [] => pfx pat []
  | c :: cs => pfx pat (c :: cs) || hasSub pat cs

/-- Python substring membership `pat in s` on strings. -/
def strIn (pat s : String) : Bool := hasSub pat.data s.data

/-- Auxiliary scanner for `str.splitlines`: `acc` holds the current line
reversed; `\x0d\n` counts as a single boundary; no trailing empty line is
produced for a final boundary. -/
def splitlinesAux : List Char → List Char → List (List Char)
  | [], acc => if acc.isEmpty then [] else [acc.reverse]
  | '\x0d' :: '\n' :: cs2, acc => acc.reverse :: splitlinesAux cs2 []
  | c :: cs, acc =>
    if isLineBreak c then acc.reverse :: splitlinesAux cs []
    else splitlinesAux cs (c :: acc)

/-- Python `str.splitlines` (lines as character lists). -/
def splitlines (s : String) : List (List Char) := splitlinesAux s.data []

/-- Python `sep.join(l)`. -/
def pyJoin (sep : String) : List String → String
  | [] => ""
  | [x] => x
  | x :: y :: xs => x ++ sep ++ pyJoin sep (y :: xs)

/-- Python `x or b` for an optional string (both `None` and `""` are falsy). -/
def pyOrStr (a : Option String) (b : String) : String :=
  match a with
  | some s => if s.isEmpty then b else s
  | none => b

/-- Python truthiness of an optional string (`None` and `""` are falsy). -/
def truthy (o : Option String) : Bool := !(o.getD "").isEmpty

/-- The string an optional holds, `""` for `None`. -/
def optStr (o : Option String) : String := o.getD ""

/-- Python `str(x)` for an optional value whose payload is kept as its string
form; `str(None)` is `"None"`. -/
def pyStrOpt : Option String → String
  | none => "None"
  | some s => s

/-! ### `_validate_manim_code` (get_illustration.py lines 112-123) -/

/-- Anchored test for the regex `color\s*=\s*[-+]?\d+(\.\d+)?` at the head of
`r`; only existence matters to `re.search`, so the optional fraction is
irrelevant and is not examined. -/
def colorNumericAt (r : List Char) : Bool :=
  if pfx "color".data r then
    match (r.drop 5).dropWhile pyIsSpace with
    | '=' :: r2 =>
      let r3 := r2.dropWhile pyIsSpace
      let r4 := match r3 with
        | c :: t => if c = '-' || c = '+' then t else c :: t
        | [] => []
      match r4 with
      | d :: _ => d.isDigit
      | [] => false
    | _ => false
  else false

/-- `re.search(r"color\s*=\s*[-+]?\d+(\.\d+)?", code)` as an existence scan. -/
def hasColorNumeric : List Char → Bool
  | [] => false
  | c :: cs => colorNumericAt (c :: cs) || hasColorNumeric cs

/-- Anchored test for `self\.wait\(\s*2\s*\)` at the head of `r` (the `\b`
boundary is checked by the caller); returns the rest after the match. -/
def waitCallAt (r : List Char) : Option (List Char) :=
  if pfx "self.wait(".data r then
    match (r.drop 10).dropWhile pyIsSpace with
    | '2' :: r2 =>
      match r2.dropWhile pyIsSpace with
      | ')' :: r3 => some r3
      | _ => none
    | _ => none
  else none

/-- `len(re.findall(r"\bself\.wait\(\s*2\s*\)", code))`: leftmost,
non-overlapping matches; `prevW` records whether the previous character is a
word character (for the `\b` boundary; after a match the previous character is
the non-word `)`). The fuel is at least the list length plus one, and every
step consumes at least one character. -/
def countWaitsAux : Nat → Bool → List Char → Nat
  | 0, _, _ => 0
  | _ + 1, _, [] => 0
  | fuel + 1, prevW, c :: cs =>
    if prevW then countWaitsAux fuel (isWordChar c) cs
    else
      match waitCallAt (c :: cs) with
      | some r3 => 1 + countWaitsAux fuel false r3
      | none => countWaitsAux fuel (isWordChar c) cs

/-- Number of `self.wait(2)` pacing calls found by the validator. -/
def countWaits (l : List Char) : Nat := countWaitsAux (l.length + 1) false l

/-- Translation of `_validate_manim_code` (lines 112-123): collects rule
violations in order and joins them with `"; "`, or yields `none`. -/
def _validate_manim_code (code : String) : Option String :=
  let problems : List String :=
    (if strIn "class AlgoVizScene" code then [] else ["AlgoVizScene class missing"]) ++
    (if strIn "from manim import *" code then []
     else ["Missing \x27from manim import *\x27"]) ++
    (if hasColorNumeric code.data then ["Numeric passed to color= is not allowed"] else []) ++
    (if countWaits code.data < 8 then
      ["Only " ++ toString (countWaits code.data) ++
        " calls to self.wait(2). Prefer 8 or more"]
     else [])
  if problems.isEmpty then none else some (pyJoin "; " problems)

/-! ### chat_with_tools (composio_tools.py lines 147-209) -/

/-- `local_text` in `chat_with_tools` (lines 180-182): the sum-tool handler's
text if truthy, otherwise the problem-tool handler's text. -/
def chat_local_text (sumText probText : Option String) : Option String :=
  if truthy sumText then sumText else probText

/-- `assistant_text` in `chat_with_tools` (lines 184-202): start from the
model's message content if truthy, fall back to `str(result)` (where `result`
is `None` when the provider raised), and finally let a truthy local-tool text
override everything. -/
def chat_assistant_text (content : Option String) (result : Option String)
    (sumText probText : Option String) : String :=
  let assistant0 := if truthy content then optStr content else pyStrOpt result
  let localText := chat_local_text sumText probText
  if truthy localText then optStr localText else assistant0

/-- The response dictionary of the successful path of `chat_with_tools`
(lines 204-209), with the `raw` echo omitted. -/
structure ChatToolsResponse where
  ok : Bool
  assistant_text : String
  result : Option String
deriving DecidableEq

/-- Translation of the successful path of `chat_with_tools`: inputs are the
completion's message content, the provider `handle_tool_calls` result (`none`
when it raised and was swallowed), and the two local handlers' outputs. -/
def chat_with_tools_response (content : Option String) (result : Option String)
    (sumText probText : Option String) : ChatToolsResponse :=
  { ok := true
    assistant_text := chat_assistant_text content result sumText probText
    result := result }

/-! ### compile_run_cpp request and run-stage timeout (composio_tools.py) -/

/-- Request model for `/api/compile-run-cpp` (lines 218-222); the pydantic
default for `timeout_sec` is 5, and an explicit `null` arrives as `none`. -/
structure CppRunRequest where
  code : String
  args : Option (List String) := none
  stdin : Option String := none
  timeout_sec : Option Int := some 5

/-- Python `x or d` on an optional integer (`0` and `None` are falsy). -/
def pyOrInt (x : Option Int) (d : Int) : Int :=
  match x with
  | some v => if v = 0 then d else v
  | none => d

/-- The wall-clock timeout handed to `subprocess.run` for the run stage:
`max(1, int(req.timeout_sec or 5))` (line 280). -/
def run_stage_timeout (req : CppRunRequest) : Int :=
  max 1 (pyOrInt req.timeout_sec 5)

/-! ### `_sanitize_manim_code` (get_illustration.py lines 126-159)

Both substitutions have the shape
`(?<!animate\.)((G2)\.METHOD\()` with `G2 = [A-Za-z_][A-Za-z0-9_\.]*`,
replaced by `G2.animate.METHOD(`.  They are modelled by an explicit
backtracking matcher: at a match position the engine takes the longest
group-2 candidate first (the greedy `*`), then requires the literal method
suffix; `re.sub` takes leftmost non-overlapping matches and continues after
each match, with the lookbehind reading the original text. -/

/-- `"animate."` reversed, for the fixed-width lookbehind `(?<!animate\.)`:
the match position is blocked iff the reversed preceding text starts with
this. -/
def animateRev : List Char := ".etamina".data

/-- The method alternatives of `replace_motion_calls`, in alternation order
(no name is a prefix of another, so at most one can match at a position). -/
def motionMethods : List (List Char) :=
  ["move_to".data, "shift".data, "scale".data, "rotate".data, "next_to".data,
   "stretch".data, "to_edge".data, "arrange".data, "align_to".data]

/-- Suffix matcher for `\.set_([A-Za-z0-9_]+)\(` after group 2: yields
(consumed text, replacement text, rest).  Group 3 is greedy and `(` is not a
word character, so the maximal word run followed by `(` is the only
possibility. -/
def setSuffix (r : List Char) : Option (List Char × List Char × List Char) :=
  if pfx ".set_".data r then
    let r5 := r.drop 5
    let g3 := r5.takeWhile isWordChar
    if g3.isEmpty then none
    else
      match r5.drop g3.length with
      | '(' :: rest =>
        some (".set_".data ++ g3 ++ ['('], ".animate.set_".data ++ g3 ++ ['('], rest)
      | _ => none
  else none

/-- Try the motion-method alternatives in order; the alternative must be
followed directly by `(`. -/
def motionFind : List (List Char) → List Char → Option (List Char × List Char × List Char)
  | [], _ => none
  | m :: ms, r1 =>
    if pfx m r1 then
      match r1.drop m.length with
      | '(' :: rest =>
        some (('.' :: m) ++ ['('], ".animate.".data ++ m ++ ['('], rest)
      | _ => motionFind ms r1
    else motionFind ms r1

/-- Suffix matcher for `\.(move_to|shift|scale|rotate|next_to|stretch|to_edge|arrange|align_to)\(`. -/
def motionSuffix (r : List Char) : Option (List Char × List Char × List Char) :=
  match r with
  | '.' :: r1 => motionFind motionMethods r1
  | _ => none

/-- One group-2 split: the first `k` characters of `run` (plus the leading
name-start character `c`) form group 2; the suffix matcher examines the
remainder. -/
def g2At (suffix : List Char → Option (List Char × List Char × List Char))
    (c : Char) (run tail : List Char) (k : Nat) :
    Option (List Char × List Char × List Char) :=
  match suffix (run.drop k ++ tail) with
  | some (con, rep, rest) =>
    some ((c :: run.take k) ++ con, (c :: run.take k) ++ rep, rest)
  | none => none

/-- Greedy backtracking over group-2 lengths, longest first, exactly as the
regex engine tries the greedy `[A-Za-z0-9_\.]*`. -/
def tryG2 (suffix : List Char → Option (List Char × List Char × List Char))
    (c : Char) (run tail : List Char) : Nat → Option (List Char × List Char × List Char)
  | 0 => g2At suffix c run tail 0
  | k + 1 =>
    match g2At suffix c run tail (k + 1) with
    | some res => some res
    | none => tryG2 suffix c run tail k

/-- Attempt a match of the whole substitution pattern at the current position;
`before` is the reversed original text preceding the position. -/
def matchAnimAt (suffix : List Char → Option (List Char × List Char × List Char))
    (before rest : List Char) : Option (List Char × List Char × List Char) :=
  match rest with
  | [] => none
  | c :: cs =>
    if isNameStart c && !(pfx animateRev before) then
      let run := cs.takeWhile isNameChar
      tryG2 suffix c run (cs.drop run.length) run.length
    else none

/-- `re.sub` scan: leftmost matches, non-overlapping, continuing after each
replacement; the lookbehind examines the original input, accumulated reversed
in `before`.  Every step consumes at least one input character, so fuel
`length + 1` never runs out. -/
def reSubAux (suffix : List Char → Option (List Char × List Char × List Char)) :
    Nat → List Char → List Char → List Char
  | 0, _, rest => rest
  | _ + 1, _, [] => []
  | fuel + 1, before, c :: cs =>
    match matchAnimAt suffix before (c :: cs) with
    | some (con, rep, rest) => rep ++ reSubAux suffix fuel (con.reverse ++ before) rest
    | none => c :: reSubAux suffix fuel (c :: before) cs

/-- `replace_set_calls` (lines 134-140) on one line. -/
def replace_set_calls (line : List Char) : List Char :=
  reSubAux setSuffix (line.length + 1) [] line

/-- `replace_motion_calls` (lines 142-148) on one line. -/
def replace_motion_calls (line : List Char) : List Char :=
  reSubAux motionSuffix (line.length + 1) [] line

/-- The per-line step of `_sanitize_manim_code` (lines 152-158): only lines
containing `self.play(` are rewritten, set-calls first, then motion calls. -/
def sanitizeLineStep (l : List Char) : List Char :=
  if hasSub "self.play(".data l then replace_motion_calls (replace_set_calls l) else l

/-- Translation of `_sanitize_manim_code` (lines 126-159): split into lines,
rewrite the `self.play(` lines, and re-join with `"\n"`. -/
def _sanitize_manim_code (code : String) : String :=
  pyJoin "\n" (((splitlines code).map sanitizeLineStep).map String.mk)

/-! ### `_extract_code_block` (get_illustration.py lines 105-109)

The pattern is ````(?:python)?\s*(.*?)``` ` with `re.DOTALL | re.IGNORECASE`,
searched with `re.search`.  The characters consumed by `(?:python)?` and
`\s*` are never backticks, and the lazy group stops at the first following
fence, so the match (when one exists) opens at the first fence of the text
and closes at the first fence that starts after the consumed prefix; if no
fence pair in this arrangement exists, no match starting anywhere exists,
because any later fence would itself have closed a match at the first. -/

/-- Leftmost split on a pattern: `splitFirst pat l = some (a, b)` iff
`l = a ++ pat ++ b` with the occurrence leftmost. -/
def splitFirst (pat : List Char) : List Char → Option (List Char × List Char)
  | [] => if pfx pat [] then some ([], []) else none
  | c :: cs =>
    if pfx pat (c :: cs) then some ([], (c :: cs).drop pat.length)
    else
      match splitFirst pat cs with
      | some (a, b) => some (c :: a, b)
      | none => none

/-- The fence pattern `` ``` ``. -/
def fencePat : List Char := [tick, tick, tick]

/-- Strip of the optional `python` tag, ASCII case-insensitively, modelling
`(?:python)?` under `re.IGNORECASE` (exotic Unicode case variants are not
modelled): drop the first six characters when they lower-case to `python`. -/
def stripPythonTag (l : List Char) : List Char :=
  if (l.take 6).map Char.toLower = "python".data then l.drop 6 else l

/-- The extraction on character lists. -/
def extractCodeBlockL (text : List Char) : Except String (List Char) :=
  match splitFirst fencePat text with
  | none => Except.error "LLM did not return a Python code block."
  | some (_, r) =>
    let r2 := (stripPythonTag r).dropWhile pyIsSpace
    match splitFirst fencePat r2 with
    | none => Except.error "LLM did not return a Python code block."
    | some (g, _) => Except.ok g

/-- Translation of `_extract_code_block` (lines 105-109). -/
def _extract_code_block (text : String) : Except String String :=
  (extractCodeBlockL text.data).map String.mk

/-! ### `_slug` and `_short_hash` (get_illustration.py lines 15-21) -/

/-- The characters the slug keeps: the regex class `[a-z0-9\-]`. -/
def slugKeep (c : Char) : Bool := ('a' ≤ c && c ≤ 'z') || c.isDigit || c = '-'

/-- `re.sub(r"[^a-z0-9\-]+", "-", s)`: each maximal run of disallowed
characters collapses to a single `-`; `inRun` tracks whether the previous
character was part of such a run. -/
def slugSubAux : Bool → List Char → List Char
  | _, [] => []
  | inRun, c :: cs =>
    if slugKeep c then c :: slugSubAux false cs
    else if inRun then slugSubAux true cs
    else '-' :: slugSubAux true cs

/-- Python `str.strip("-")`. -/
def stripDash (l : List Char) : List Char :=
  ((l.dropWhile (fun c => c = '-')).reverse.dropWhile (fun c => c = '-')).reverse

/-- Translation of `_slug` (lines 15-16).  `str.lower` is modelled by the
ASCII `Char.toLower` (a non-ASCII letter stays non-ASCII either way and is
collapsed to `-` by the substitution, matching Python on all but a few exotic
code points). -/
def _slug (s : String) : String :=
  String.mk (stripDash (slugSubAux false (s.data.map Char.toLower)))

/-- UTF-8 encoding of one code point, as `str.encode()` produces. -/
def utf8Char (c : Char) : List Nat :=
  let n := c.toNat
  if n < 0x80 then [n]
  else if n < 0x800 then [0xC0 + n / 0x40, 0x80 + n % 0x40]
  else if n < 0x10000 then
    [0xE0 + n / 0x1000, 0x80 + n / 0x40 % 0x40, 0x80 + n % 0x40]
  else
    [0xF0 + n / 0x40000, 0x80 + n / 0x1000 % 0x40, 0x80 + n / 0x40 % 0x40,
      0x80 + n % 0x40]

/-- UTF-8 byte sequence of a string (`s.encode()`). -/
def utf8 (s : String) : List Nat :=
  s.data.foldr (fun c acc => utf8Char c ++ acc) []

/-- Truncation to a 32-bit word. -/
def w32 (x : Nat) : Nat := x % 4294967296

/-- 32-bit right rotation. -/
def rotr32 (n x : Nat) : Nat := w32 ((x >>> n) ||| (x <<< (32 - n)))

/-- 32-bit complement of a masked word. -/
def bnot32 (x : Nat) : Nat := 4294967295 - x

/-- SHA-256 round constants. -/
def shaK : List Nat :=
  [1116352408, 1899447441, 3049323471, 3921009573, 961987163,
   1508970993, 2453635748, 2870763221, 3624381080, 310598401,
   607225278, 1426881987, 1925078388, 2162078206, 2614888103,
   3248222580, 3835390401, 4022224774, 264347078, 604807628,
   770255983, 1249150122, 1555081692, 1996064986, 2554220882,
   2821834349, 2952996808, 3210313671, 3336571891, 3584528711,
   113926993, 338241895, 666307205, 773529912, 1294757372,
   1396182291, 1695183700, 1986661051, 2177026350, 2456956037,
   2730485921, 2820302411, 3259730800, 3345764771, 3516065817,
   3600352804, 4094571909, 275423344, 430227734, 506948616,
   659060556, 883997877, 958139571, 1322822218, 1537002063,
   1747873779, 1955562222, 2024104815, 2227730452, 2361852424,
   2428436474, 2756734187, 3204031479, 3329325298]

/-- SHA-256 initial hash state. -/
def shaH0 : List Nat :=
  [1779033703, 3144134277, 1013904242, 2773480762,
   1359893119, 2600822924, 528734635, 1541459225]

/-- Big-endian bytes of a value, fixed width. -/
def beBytes : Nat → Nat → List Nat
  | 0, _ => []
  | k + 1, v => beBytes k (v / 256) ++ [v % 256]

/-- SHA-256 padding: `0x80`, zeros to 56 mod 64, 64-bit big-endian bit
length. -/
def shaPad (msg : List Nat) : List Nat :=
  msg ++ [0x80] ++ List.replicate ((120 - (msg.length + 1) % 64) % 64) 0 ++
    beBytes 8 (8 * msg.length)

/-- Big-endian 32-bit words of a byte list. -/
def toWords : List Nat → List Nat
  | a :: b :: c :: d :: rest => (((a * 256 + b) * 256 + c) * 256 + d) :: toWords rest
  | _ => []

/-- SHA-256 message-schedule sigma functions. -/
def smallSigma0 (x : Nat) : Nat := rotr32 7 x ^^^ rotr32 18 x ^^^ (x >>> 3)

/-- See `smallSigma0`. -/
def smallSigma1 (x : Nat) : Nat := rotr32 17 x ^^^ rotr32 19 x ^^^ (x >>> 10)

/-- SHA-256 compression sigma functions. -/
def bigSigma0 (x : Nat) : Nat := rotr32 2 x ^^^ rotr32 13 x ^^^ rotr32 22 x

/-- See `bigSigma0`. -/
def bigSigma1 (x : Nat) : Nat := rotr32 6 x ^^^ rotr32 11 x ^^^ rotr32 25 x

/-- Extend the message schedule; `wrev` is the schedule so far, most recent
first. -/
def extendW : Nat → List Nat → List Nat
  | 0, wrev => wrev
  | k + 1, wrev =>
    extendW k
      (w32 (smallSigma1 (wrev.getD 1 0) + wrev.getD 6 0 +
        smallSigma0 (wrev.getD 14 0) + wrev.getD 15 0) :: wrev)

/-- One SHA-256 compression round; the state is `[a,b,c,d,e,f,g,h]`. -/
def shaRound (st : List Nat) (kw : Nat × Nat) : List Nat :=
  match st with
  | [a, b, c, d, e, f, g, h] =>
    let ch := (e &&& f) ^^^ (bnot32 e &&& g)
    let maj := (a &&& b) ^^^ (a &&& c) ^^^ (b &&& c)
    let t1 := w32 (h + bigSigma1 e + ch + kw.1 + kw.2)
    let t2 := w32 (bigSigma0 a + maj)
    [w32 (t1 + t2), a, b, c, w32 (d + t1), e, f, g]
  | st => st

/-- Process 16-word blocks; the fuel is at least the word count and every
step consumes 16 words. -/
def shaBlocks : Nat → List Nat → List Nat → List Nat
  | 0, h, _ => h
  | _ + 1, h, [] => h
  | fuel + 1, h, ws =>
    let sched := (extendW 48 (ws.take 16).reverse).reverse
    let st := (shaK.zip sched).foldl shaRound h
    shaBlocks fuel (h.zipWith (fun x y => w32 (x + y)) st) (ws.drop 16)

/-- SHA-256 digest (32 bytes) of a byte list. -/
def sha256Bytes (msg : List Nat) : List Nat :=
  let ws := toWords (shaPad msg)
  (shaBlocks (ws.length + 1) shaH0 ws).foldr (fun h acc => beBytes 4 h ++ acc) []

/-- The urlsafe base64 alphabet. -/
def b64Alphabet : List Char :=
  "ABCDEFGHIJKLMNOPQRSTUVWXYZabcdefghijklmnopqrstuvwxyz0123456789-_".data

/-- Digit of the urlsafe base64 alphabet. -/
def b64Char (n : Nat) : Char := b64Alphabet.getD n 'A'

/-- `base64.urlsafe_b64encode` on a byte list. -/
def b64Encode : List Nat → List Char
  | [] => []
  | [a] => [b64Char (a / 4), b64Char (a % 4 * 16), '=', '=']
  | [a, b] => [b64Char (a / 4), b64Char (a % 4 * 16 + b / 16), b64Char (b % 16 * 4), '=']
  | a :: b :: c :: rest =>
    b64Char (a / 4) :: b64Char (a % 4 * 16 + b / 16) ::
      b64Char (b % 16 * 4 + c / 64) :: b64Char (c % 64) :: b64Encode rest

/-- Python `str.rstrip("=")`. -/
def rstripEq (l : List Char) : List Char :=
  (l.reverse.dropWhile (fun c => c = '=')).reverse

/-- Translation of `_short_hash` (lines 19-21): urlsafe base64 of the first 8
digest bytes of SHA-256 of the UTF-8 input, with `=` padding stripped. -/
def _short_hash (s : String) : String :=
  String.mk (rstripEq (b64Encode ((sha256Bytes (utf8 s)).take 8)))

/-! ### The illustration endpoint (get_illustration.py lines 162-237) -/

/-- A row of the `problems` table, restricted to the fields the endpoint
reads (`row.get` yields `none` for a missing field). -/
structure ProblemRow where
  question : Option String := none
  markdown : Option String := none
  answer : Option String := none
deriving DecidableEq

/-- The endpoint's external collaborators as oracles: the database query
(line 171), the chat completion's message content (lines 194-206), the
renderer `render_manim_scene` (sanitized code to local path, line 217), and
the storage helper `upload_to_supabase` (lines 53-69) which uploads and signs
under `(local_path, bucket, key)` and is here a single oracle taking those
three arguments.  `Except.error` models a raised exception. -/
structure IllustrationEnv where
  dbQuery : String → Except String (List ProblemRow)
  llmContent : String → Option String
  render : String → Except String String
  upload : String → String → String → Except String String

/-- Failures that escape the handler: `HTTPException`s raised explicitly, and
the uncaught `RuntimeError` from `_extract_code_block`. -/
inductive ApiError where
  | http (status : Nat) (detail : String)
  | runtime (msg : String)
deriving DecidableEq

/-- The response dictionary of the illustration endpoint (lines 210-226);
optional fields are present only when set. -/
structure IllustrationResult where
  question : String
  code : String
  warning : Option String
  video_url : Option String := none
  storage_key : Option String := none
  render_error : Option String := none
deriving DecidableEq

/-- Translation of `build_prompt_from_markdown` (lines 72-102). -/
def build_prompt_from_markdown (question markdown : String) : String :=
  "\nYou are a senior Manim Community Edition developer. Output ONLY ONE Python code block with a COMPLETE, runnable scene.\n\nUse exactly: from manim import *\nDefine exactly one scene class: AlgoVizScene(Scene)\nUse Text (no LaTeX). No prose outside the code block.\n\nPick a tiny deterministic demo INSIDE the scene (e.g., _example()).\nAim for ~20–30 seconds with ≥ 8 calls to self.wait(2).\n\nKeep labels readable; text above shapes (z-index). Use SurroundingRectangle(YELLOW, stroke_width=6) to highlight.\nIf a node/box becomes GREEN, set its text to WHITE. Use named/hex colors only.\n\nMaintain a single status_text at top (to_edge(UP)) and always update with:\nTransform(status_text, new_text.move_to(status_text.get_center()))\n\nHere is the full problem context (question, explanation, code). Do NOT execute it; derive a minimal faithful visualization:\nQUESTION:\n" ++
    question ++
    "\n\nMARKDOWN:\n" ++
    markdown ++
    "\n\nReturn only one Python code block defining AlgoVizScene that follows all rules.\n\nNever pass a positional color to SurroundingRectangle; always use `color=...`.\nNever Transform a node into a SurroundingRectangle. Instead, do:\nsr = SurroundingRectangle(node, color=YELLOW, stroke_width=6); self.play(Create(sr)); self.wait(2); self.play(FadeOut(sr)).\n\n"

/-- The storage key computed at line 218:
`f"algo-viz/{_slug(question)}/{_short_hash(code)}.mp4"`, where `code` is the
extracted, pre-sanitization code. -/
def illustrationKey (question code : String) : String :=
  "algo-viz/" ++ _slug question ++ "/" ++ _short_hash code ++ ".mp4"

/-- Translation of the `get_illustration` endpoint body (lines 162-226).
The `bucket` query parameter is accepted as the handler does; the upload call
passes the literal `"illustrations"` exactly as at line 220. -/
def get_illustration (env : IllustrationEnv) (idv : String) (render : Bool)
    (bucket : String) : Except ApiError IllustrationResult :=
  match env.dbQuery idv with
  | Except.error _ => Except.error (ApiError.http 500 "Supabase query failed")
  | Except.ok rows =>
    match rows with
    | [] => Except.error (ApiError.http 404 "Problem not found")
    | row :: _ =>
      let question := pyOrStr row.question ""
      let markdown := pyOrStr row.markdown (pyOrStr row.answer "")
      if markdown.isEmpty then
        Except.error (ApiError.http 400 "Problem row missing markdown/explanation")
      else
        let prompt := build_prompt_from_markdown question markdown
        let raw := pyOrStr (env.llmContent prompt) ""
        match _extract_code_block raw with
        | Except.error e => Except.error (ApiError.runtime e)
        | Except.ok code =>
          let warning := _validate_manim_code code
          let base : IllustrationResult :=
            { question := question, code := code, warning := warning }
          if render then
            match env.render (_sanitize_manim_code code) with
            | Except.error e => Except.ok { base with render_error := some e }
            | Except.ok mp4_path =>
              let key := illustrationKey question code
              match env.upload mp4_path "illustrations" key with
              | Except.error e => Except.ok { base with render_error := some e }
              | Except.ok signed_url =>
                Except.ok { base with video_url := some signed_url, storage_key := some key }
          else Except.ok base

/-- Translation of the alias endpoint `get_illustration_by_id`
(lines 229-237): it forwards all four arguments to `get_illustration`. -/
def get_illustration_by_id (env : IllustrationEnv) (idv : String) (render : Bool)
    (bucket : String) : Except ApiError IllustrationResult :=
  get_illustration env idv render bucket

/-! ### Concrete environments used by the witness theorems -/

/-- An environment in which every stage succeeds. -/
def envOk : IllustrationEnv :=
  { dbQuery := fun _ => Except.ok [{ question := some "Two Sum", markdown := some "md" }]
    llmContent := fun _ => some "```python\nprint(1)\n```"
    render := fun _ => Except.ok "/tmp/out.mp4"
    upload := fun _ _ _ => Except.ok "https://signed.example" }

/-- An environment whose renderer raises. -/
def envRenderFail : IllustrationEnv :=
  { envOk with render := fun _ => Except.error "manim failed" }

/-- An environment whose upload helper raises. -/
def envUploadFail : IllustrationEnv :=
  { envOk with upload := fun _ _ _ => Except.error "storage down" }

/-- An upload oracle that only accepts the `illustrations` bucket; on that
bucket it agrees with `envOk.upload`. -/
def uploadProbe : String → String → String → Except String String :=
  fun _ b _ => if b = "illustrations" then Except.ok "https://signed.example"
    else Except.error "wrong bucket"

/-- Code with the required import and eight pacing calls but no scene class
declaration (concrete input for the validator claims). -/
def c5code : String :=
  "from manim import *\nself.wait(2)\nself.wait(2)\nself.wait(2)\nself.wait(2)\nself.wait(2)\nself.wait(2)\nself.wait(2)\nself.wait(2)\n"

/-- A two-line scene in which only the second line schedules an animation
(concrete input for the sanitizer-scoping claim). -/
def c8code : String := "title.set_fill(RED)\nself.play(sq.move_to(UP))"

/-- The response produced by `get_illustration` under `envOk`. -/
def resOk : IllustrationResult :=
  { question := "Two Sum", code := "print(1)\n"
    warning := _validate_manim_code "print(1)\n"
    video_url := some "https://signed.example"
    storage_key := some (illustrationKey "Two Sum" "print(1)\n") }

/-! ### Theorems -/

/-- Claim C1, counterexample: on a completed request with no local-tool text,
a non-empty provider tool-call result, and non-empty raw assistant content,
`assistant_text` is the raw content, not the provider result — the claimed
precedence chain (local > provider > raw > empty) orders the middle two the
wrong way round. -/
theorem C1_counterexample :
    chat_assistant_text (some "RAW MODEL TEXT") (some "PROVIDER RESULT") none none =
      "RAW MODEL TEXT" ∧
    chat_assistant_text (some "RAW MODEL TEXT") (some "PROVIDER RESULT") none none ≠
      "PROVIDER RESULT" := by
  exact ⟨rfl, by decide⟩

/-- Claim C1, amended: `assistant_text` follows the precedence chain
local-tool handler text (if truthy) > raw assistant message content (if
truthy) > stringified provider tool-call result (which is `"None"` when the
provider produced no result, never the empty string). -/
theorem C1_amended :
    (∀ content result sumT probT, truthy (chat_local_text sumT probT) = true →
      chat_assistant_text content result sumT probT = optStr (chat_local_text sumT probT)) ∧
    (∀ content result sumT probT, truthy (chat_local_text sumT probT) = false →
      truthy content = true →
      chat_assistant_text content result sumT probT = optStr content) ∧
    (∀ content result sumT probT, truthy (chat_local_text sumT probT) = false →
      truthy content = false →
      chat_assistant_text content result sumT probT = pyStrOpt result) := by
  refine ⟨?_, ?_, ?_⟩
  · intro content result sumT probT h1
    simp [chat_assistant_text, h1]
  · intro content result sumT probT h1 h2
    simp [chat_assistant_text, h1, h2]
  · intro content result sumT probT h1 h2
    simp [chat_assistant_text, h1, h2]

/-- Witness for `C1_amended` at concrete inputs. -/
theorem C1_witness :
    chat_assistant_text (some "RAW") (some "RES") (some "LOCAL") none = "LOCAL" :=
  (C1_amended.1 (some "RAW") (some "RES") (some "LOCAL") none (by decide)).trans (by decide)

/-- Claim C2 (idempotence of the sanitizer) evaluated at the failing input:
the already-animated line `self.play(obj.animate.move_to(RIGHT))` is rewritten
to `self.play(obj.animate.animate.move_to(RIGHT))` — the greedy dotted-name
group absorbs `obj.animate`, so the lookbehind never blocks — and a second
application changes the text again, so the sanitizer is not idempotent. -/
theorem C2_eval :
    _sanitize_manim_code "self.play(obj.animate.move_to(RIGHT))" =
      "self.play(obj.animate.animate.move_to(RIGHT))" ∧
    _sanitize_manim_code (_sanitize_manim_code "self.play(obj.animate.move_to(RIGHT))") ≠
      _sanitize_manim_code "self.play(obj.animate.move_to(RIGHT))" := by
  exact ⟨rfl, by decide⟩

/-- Claim C7, counterexample: a supplied `timeout_sec` of 0 is falsy in
`req.timeout_sec or 5`, so the effective run-stage timeout is 5, not the
claimed clamp result 1. -/
theorem C7_counterexample :
    run_stage_timeout { code := "", timeout_sec := some 0 } = 5 ∧
    run_stage_timeout { code := "", timeout_sec := some 0 } ≠ 1 := by
  exact ⟨rfl, by decide⟩

/-- Claim C7, amended: the effective run-stage timeout is the supplied
`timeout_sec` clamped to a minimum of 1 when the supplied value is non-zero,
and 5 when `timeout_sec` is absent or 0 (both falsy under `or`). -/
theorem C7_amended :
    (∀ req : CppRunRequest, ∀ t : Int, req.timeout_sec = some t → t ≠ 0 →
      run_stage_timeout req = max 1 t) ∧
    (∀ req : CppRunRequest, req.timeout_sec = none ∨ req.timeout_sec = some 0 →
      run_stage_timeout req = 5) := by
  constructor
  · intro req t ht hz
    simp [run_stage_timeout, pyOrInt, ht, hz]
  · intro req h
    rcases h with h | h <;> simp [run_stage_timeout, pyOrInt, h]

/-- Witness for `C7_amended` at concrete requests. -/
theorem C7_witness :
    run_stage_timeout { code := "", timeout_sec := some 7 } = 7 ∧
    run_stage_timeout { code := "", timeout_sec := none } = 5 :=
  ⟨(C7_amended.1 { code := "", timeout_sec := some 7 } 7 rfl (by decide)).trans (by decide),
    C7_amended.2 { code := "", timeout_sec := none } (Or.inl rfl)⟩

/-- Claim C9: for every combination of environment, id, render flag and
bucket, the alias endpoint returns exactly what the primary endpoint
returns (the alias forwards all arguments unchanged). -/
theorem C9_alias (env : IllustrationEnv) (idv : String) (render : Bool)
    (bucket : String) :
    get_illustration_by_id env idv render bucket =
      get_illustration env idv render bucket := rfl

/-- A prefix of a list is a prefix of any extension of the list. -/
theorem pfx_append_of_pfx : ∀ p m t : List Char, pfx p m = true → pfx p (m ++ t) = true
  | [], _, _, _ => rfl
  | _ :: _, [], _, h => by cases h
  | a :: as, b :: bs, t, h => by
    simp only [pfx, Bool.and_eq_true, decide_eq_true_eq] at h ⊢
    exact ⟨h.1, pfx_append_of_pfx as bs t h.2⟩

/-- A prefix occurrence yields substring membership. -/
theorem hasSub_of_pfx (p l : List Char) (h : pfx p l = true) : hasSub p l = true := by
  cases l with
  | nil => simpa [hasSub] using h
  | cons c cs => simp [hasSub, h]

/-- The character data of a string concatenation. -/
theorem strData_append (a b : String) : (a ++ b).data = a.data ++ b.data := by
  cases a
  cases b
  rfl

/-- The join of a nonempty list starts with its head. -/
theorem pyJoin_cons_data (sep x : String) (xs : List String) :
    ∃ t, (pyJoin sep (x :: xs)).data = x.data ++ t := by
  cases xs with
  | nil => exact ⟨[], by simp [pyJoin]⟩
  | cons y ys =>
    refine ⟨sep.data ++ (pyJoin sep (y :: ys)).data, ?_⟩
    show (x ++ sep ++ pyJoin sep (y :: ys)).data = _
    rw [strData_append, strData_append, List.append_assoc]

/-- Claim C5, counterexample: `c5code` has the required import, no numeric
color literal and eight pacing calls, yet the validator returns a warning
(the missing scene class), so the claimed three conditions do not suffice for
a null warning. -/
theorem C5_counterexample :
    strIn "from manim import *" c5code = true ∧
    hasColorNumeric c5code.data = false ∧
    8 ≤ countWaits c5code.data ∧
    _validate_manim_code c5code = some "AlgoVizScene class missing" := by
  refine ⟨by decide, by decide, by decide, ?_⟩
  decide

/-- Claim C5, amended: code missing the scene class declaration always gets a
warning mentioning that declaration; and code containing the scene class
declaration and the required import, with no numeric color literal and at
least eight pacing calls, gets a null warning. -/
theorem C5_amended :
    (∀ code : String, strIn "class AlgoVizScene" code = false →
      ∃ w, _validate_manim_code code = some w ∧ strIn "AlgoVizScene" w = true) ∧
    (∀ code : String, strIn "class AlgoVizScene" code = true →
      strIn "from manim import *" code = true →
      hasColorNumeric code.data = false →
      8 ≤ countWaits code.data →
      _validate_manim_code code = none) := by
  constructor
  · intro code h
    unfold _validate_manim_code
    rw [h]
    simp only [Bool.false_eq_true, if_false, List.cons_append, List.nil_append,
      List.isEmpty_cons, if_neg]
    refine ⟨_, rfl, ?_⟩
    obtain ⟨t, ht⟩ := pyJoin_cons_data "; " "AlgoVizScene class missing" _
    unfold strIn
    rw [ht]
    exact hasSub_of_pfx _ _ (pfx_append_of_pfx _ _ _ (by decide))
  · intro code h1 h2 h3 h4
    unfold _validate_manim_code
    rw [h1, h2, h3]
    have h5 : ¬ countWaits code.data < 8 := by omega
    simp [h5]

/-- Witness for `C5_amended` at concrete code strings. -/
theorem C5_witness :
    (∃ w, _validate_manim_code "x" = some w ∧ strIn "AlgoVizScene" w = true) ∧
    _validate_manim_code ("class AlgoVizScene\n" ++ c5code) = none :=
  ⟨C5_amended.1 "x" (by decide),
    C5_amended.2 ("class AlgoVizScene\n" ++ c5code) (by decide) (by decide) (by decide)
      (by decide)⟩

/-- Claim C6: when rendering is requested and the pipeline reaches the render
stage, a failure raised by the renderer, or by the upload/signing helper, is
caught and attached as `render_error`; the response is still a success and
carries the question, the extracted code, and the warning unchanged (and no
video URL or storage key). -/
theorem C6_render_error (env : IllustrationEnv) (idv bucket : String)
    (row : ProblemRow) (rest : List ProblemRow) (code e : String)
    (hdb : env.dbQuery idv = Except.ok (row :: rest))
    (hmd : (pyOrStr row.markdown (pyOrStr row.answer "")).isEmpty = false)
    (hex : _extract_code_block
        (pyOrStr (env.llmContent (build_prompt_from_markdown (pyOrStr row.question "")
          (pyOrStr row.markdown (pyOrStr row.answer "")))) "") = Except.ok code)
    (hfail : env.render (_sanitize_manim_code code) = Except.error e ∨
      ∃ p, env.render (_sanitize_manim_code code) = Except.ok p ∧
        env.upload p "illustrations" (illustrationKey (pyOrStr row.question "") code) =
          Except.error e) :
    get_illustration env idv true bucket = Except.ok
      { question := pyOrStr row.question "", code := code,
        warning := _validate_manim_code code, render_error := some e } := by
  unfold get_illustration
  rw [hdb]
  simp only [hmd, Bool.false_eq_true, if_false, hex]
  rcases hfail with hr | ⟨p, hp, hu⟩
  · simp [hr]
  · simp [hp, hu]

/-- Witness for `C6_render_error`: under `envRenderFail` the renderer raises,
and the endpoint still answers with the base fields plus `render_error`. -/
theorem C6_witness :
    get_illustration envRenderFail "1" true "illustrations" = Except.ok
      { question := "Two Sum", code := "print(1)\n",
        warning := _validate_manim_code "print(1)\n",
        render_error := some "manim failed" } :=
  C6_render_error envRenderFail "1" "illustrations"
    { question := some "Two Sum", markdown := some "md" } [] "print(1)\n" "manim failed"
    rfl rfl rfl (Or.inl rfl)

/-- Claim C10: the endpoint's result does not depend on the `bucket` query
parameter, nor on what the storage helper would do on any bucket other than
the literal `"illustrations"`: the upload and signing are always addressed to
the fixed `"illustrations"` bucket. -/
theorem C10_bucket (env : IllustrationEnv)
    (u2 : String → String → String → Except String String)
    (idv : String) (render : Bool) (b b2 : String)
    (hu : ∀ p k, u2 p "illustrations" k = env.upload p "illustrations" k) :
    get_illustration { env with upload := u2 } idv render b =
      get_illustration env idv render b2 := by
  unfold get_illustration
  cases hdb : env.dbQuery idv with
  | error err => simp [hdb]
  | ok rows =>
    cases rows with
    | nil => simp [hdb]
    | cons row rest =>
      simp only [hdb]
      cases hmd : (pyOrStr row.markdown (pyOrStr row.answer "")).isEmpty with
      | true => simp [hmd]
      | false =>
        simp only [hmd, Bool.false_eq_true, if_false]
        cases hex : _extract_code_block
            (pyOrStr (env.llmContent (build_prompt_from_markdown (pyOrStr row.question "")
              (pyOrStr row.markdown (pyOrStr row.answer "")))) "") with
        | error err => simp [hex]
        | ok code =>
          simp only [hex]
          cases render with
          | false => simp
          | true =>
            simp only [if_true]
            cases hr : env.render (_sanitize_manim_code code) with
            | error err => simp [hr]
            | ok p =>
              simp only [hr]
              rw [hu]

/-- Witness for `C10_bucket`: a probing upload oracle that rejects every
bucket except `"illustrations"` yields the same response as `envOk`, for two
different values of the `bucket` query parameter. -/
theorem C10_witness :
    get_illustration { envOk with upload := uploadProbe } "1" true "BUCKET-A" =
      get_illustration envOk "1" true "BUCKET-B" :=
  C10_bucket envOk uploadProbe "1" true "BUCKET-A" "BUCKET-B" (fun p k => rfl)

/-- Any successful response's storage key equals the content-derived key of
its own `question` and (pre-sanitization) `code` fields. -/
theorem illus_ok_storage_key (env : IllustrationEnv) (idv : String) (render : Bool)
    (bucket : String) (r : IllustrationResult) (k : String)
    (h : get_illustration env idv render bucket = Except.ok r)
    (hk : r.storage_key = some k) :
    k = illustrationKey r.question r.code := by
  unfold get_illustration at h
  cases hdb : env.dbQuery idv with
  | error err => rw [hdb] at h; cases h
  | ok rows =>
    rw [hdb] at h
    cases rows with
    | nil => cases h
    | cons row rest =>
      simp only [] at h
      cases hmd : (pyOrStr row.markdown (pyOrStr row.answer "")).isEmpty with
      | true => rw [hmd] at h; cases h
      | false =>
        rw [hmd] at h
        simp only [Bool.false_eq_true, if_false] at h
        cases hex : _extract_code_block
            (pyOrStr (env.llmContent (build_prompt_from_markdown (pyOrStr row.question "")
              (pyOrStr row.markdown (pyOrStr row.answer "")))) "") with
        | error err => rw [hex] at h; cases h
        | ok code =>
          rw [hex] at h
          cases render with
          | false =>
            simp only [if_neg, Bool.false_eq_true] at h
            cases h
            simp at hk
          | true =>
            simp only [if_true] at h
            cases hr : env.render (_sanitize_manim_code code) with
            | error err =>
              rw [hr] at h
              cases h
              simp at hk
            | ok p =>
              simp only [hr] at h
              cases hup : env.upload p "illustrations"
                  (illustrationKey (pyOrStr row.question "") code) with
              | error err =>
                simp only [hup] at h
                cases h
                simp at hk
              | ok url =>
                simp only [hup] at h
                cases h
                simp at hk
                subst hk
                rfl

/-- Claim C3: whenever the endpoint returns a storage key, that key is
`algo-viz/<slug(question)>/<short_hash(code)>.mp4` computed from the response's
`question` and its extracted, pre-sanitization `code` (the renderer received
`_sanitize_manim_code code`, but the hash input is `code` itself); hence any
two invocations — even under different environments, ids, or buckets — that
return the same question and the same extracted code return the same key. -/
theorem C3_storage_key (env1 env2 : IllustrationEnv) (id1 id2 : String)
    (rd1 rd2 : Bool) (b1 b2 : String) (r1 r2 : IllustrationResult) (k1 k2 : String)
    (h1 : get_illustration env1 id1 rd1 b1 = Except.ok r1)
    (h2 : get_illustration env2 id2 rd2 b2 = Except.ok r2)
    (hk1 : r1.storage_key = some k1) (hk2 : r2.storage_key = some k2) :
    k1 = illustrationKey r1.question r1.code ∧
    (r1.question = r2.question → r1.code = r2.code → k1 = k2) := by
  have e1 := illus_ok_storage_key env1 id1 rd1 b1 r1 k1 h1 hk1
  have e2 := illus_ok_storage_key env2 id2 rd2 b2 r2 k2 h2 hk2
  refine ⟨e1, fun hq hc => ?_⟩
  rw [e1, e2, hq, hc]

/-- Witness for `C3_storage_key`: two successful runs under `envOk`. -/
theorem C3_witness :
    illustrationKey "Two Sum" "print(1)\n" = illustrationKey "Two Sum" "print(1)\n" :=
  (C3_storage_key envOk envOk "1" "1" true true "b1" "b2" resOk resOk
    (illustrationKey "Two Sum" "print(1)\n") (illustrationKey "Two Sum" "print(1)\n")
    rfl rfl rfl rfl).2 rfl rfl

/-- Mapping and indexing with a default commute below the length. -/
theorem getD_map_lt {α β : Type} (f : α → β) (l : List α) (i : Nat) (d : β) (d2 : α)
    (h : i < l.length) : (l.map f).getD i d = f (l.getD i d2) := by
  induction l generalizing i with
  | nil => cases h
  | cons x xs ih =>
    cases i with
    | zero => rfl
    | succ n => exact ih n (Nat.lt_of_succ_lt_succ h)

/-- Claim C8: the sanitizer output is the `"\n"`-join of the per-line images
of the input lines, and every input line that does not contain the
animation-scheduling marker `self.play(` — even one containing a rewritable
method-call pattern — appears unchanged at its own index. -/
theorem C8_lines (code : String) (i : Nat) (h : i < (splitlines code).length)
    (hm : hasSub "self.play(".data ((splitlines code).getD i []) = false) :
    _sanitize_manim_code code =
      pyJoin "\n" (((splitlines code).map sanitizeLineStep).map String.mk) ∧
    ((splitlines code).map sanitizeLineStep).getD i [] = (splitlines code).getD i [] := by
  refine ⟨rfl, ?_⟩
  rw [getD_map_lt sanitizeLineStep (splitlines code) i [] [] h]
  unfold sanitizeLineStep
  rw [hm]
  simp

/-- Witness for `C8_lines`: in `c8code` the first line has a `set_fill(`
pattern but no `self.play(` marker and passes through unchanged. -/
theorem C8_witness :
    _sanitize_manim_code c8code =
      pyJoin "\n" (((splitlines c8code).map sanitizeLineStep).map String.mk) ∧
    ((splitlines c8code).map sanitizeLineStep).getD 0 [] = (splitlines c8code).getD 0 [] :=
  C8_lines c8code 0 (by decide) (by decide)

/-- Two strings with the same character data are equal. -/
theorem str_ext (s t : String) (h : s.data = t.data) : s = t := by
  cases s
  cases t
  cases h
  rfl

/-- The fence string's data. -/
theorem fence_data : "```".data = fencePat := by decide

/-- A backtick is not regex whitespace. -/
theorem pyIsSpace_tick : pyIsSpace tick = false := by decide

/-- A list is a prefix of any extension of itself. -/
theorem pfx_refl_append : ∀ l t : List Char, pfx l (l ++ t) = true
  | [], _ => rfl
  | a :: as, t => by
    simp only [List.cons_append, pfx, Bool.and_eq_true, decide_eq_true_eq]
    exact ⟨trivial, pfx_refl_append as t⟩

/-- With no backtick in `pre`, the leftmost fence of `pre ++ (fence ++ rest)`
is the explicit one, and `splitFirst` cuts exactly there. -/
theorem splitFirst_fence (pre rest : List Char) (h : tick ∉ pre) :
    splitFirst fencePat (pre ++ (fencePat ++ rest)) = some (pre, rest) := by
  induction pre with
  | nil =>
    have h1 : pfx fencePat (tick :: tick :: tick :: rest) = true :=
      pfx_refl_append fencePat rest
    show splitFirst fencePat (tick :: tick :: tick :: rest) = some ([], rest)
    unfold splitFirst
    rw [if_pos h1]
    rfl
  | cons c pre ih =>
    have hc : ¬ tick = c := fun hc => h (hc ▸ List.mem_cons_self c pre)
    have hnp : pfx fencePat (c :: (pre ++ (fencePat ++ rest))) = false := by
      simp [fencePat, pfx, hc]
    have ih2 := ih fun hm => h (List.mem_cons_of_mem c hm)
    show splitFirst fencePat (c :: (pre ++ (fencePat ++ rest))) = some (c :: pre, rest)
    unfold splitFirst
    rw [hnp]
    simp only [Bool.false_eq_true, if_false, ih2]

/-- A `pfx` certificate decomposes the list. -/
theorem pfx_eq_append : ∀ pat l : List Char, pfx pat l = true → l = pat ++ l.drop pat.length
  | [], l, _ => by simp
  | _ :: _, [], h => by cases h
  | a :: as, b :: bs, h => by
    simp only [pfx, Bool.and_eq_true, decide_eq_true_eq] at h
    obtain ⟨h1, h2⟩ := h
    subst h1
    simp only [List.cons_append, List.length_cons, List.drop_succ_cons]
    exact congrArg (List.cons a) (pfx_eq_append as bs h2)

/-- A successful `splitFirst` on the fence pattern decomposes the input. -/
theorem splitFirst_fence_some : ∀ l a b : List Char,
    splitFirst fencePat l = some (a, b) → l = a ++ fencePat ++ b := by
  intro l
  induction l with
  | nil =>
    intro a b h
    simp [splitFirst, pfx, fencePat] at h
  | cons c cs ih =>
    intro a b h
    unfold splitFirst at h
    by_cases hp : pfx fencePat (c :: cs) = true
    · rw [if_pos hp] at h
      injection h with h
      injection h with ha hb
      subst ha
      subst hb
      simpa using pfx_eq_append fencePat (c :: cs) hp
    · rw [if_neg hp] at h
      cases hsf : splitFirst fencePat cs with
      | none => rw [hsf] at h; cases h
      | some ab =>
        obtain ⟨a2, b2⟩ := ab
        rw [hsf] at h
        injection h with h
        injection h with ha hb
        subst ha
        subst hb
        simp [List.cons_append, ih a2 b2 hsf]

/-- `stripPythonTag` only ever removes a prefix. -/
theorem stripPythonTag_suffix (l : List Char) : ∃ t, l = t ++ stripPythonTag l := by
  unfold stripPythonTag
  split
  · exact ⟨l.take 6, (List.take_append_drop 6 l).symm⟩
  · exact ⟨[], rfl⟩

/-- The tag test never reaches past a backtick, so `stripPythonTag` commutes
with appending a backtick-headed remainder. -/
theorem stripPythonTag_append (mid r : List Char) :
    stripPythonTag (mid ++ tick :: r) = stripPythonTag mid ++ tick :: r := by
  by_cases hc : ((mid ++ tick :: r).take 6).map Char.toLower = "python".data
  · have hlen : 6 ≤ mid.length := by
      by_contra hlt
      push_neg at hlt
      have htk : tick ∈ (mid ++ tick :: r).take 6 := by
        rw [List.take_append_eq_append_take]
        refine List.mem_append_right _ ?_
        have h61 : 6 - mid.length = (6 - mid.length - 1) + 1 := by omega
        rw [h61, List.take_succ_cons]
        exact List.mem_cons_self tick _
      have hmem : tick ∈ "python".data := by
        rw [← hc]
        have := List.mem_map_of_mem Char.toLower htk
        simpa using this
      exact absurd hmem (by decide)
    have hc2 : (mid.take 6).map Char.toLower = "python".data := by
      rw [← List.take_append_of_le_length hlen]
      exact hc
    unfold stripPythonTag
    rw [if_pos hc, if_pos hc2, List.drop_append_of_le_length hlen]
  · have hc2 : ¬ (mid.take 6).map Char.toLower = "python".data := by
      intro hmid
      have hl6 : (mid.take 6).length = 6 := by
        have := congrArg List.length hmid
        simpa using this
      have hlen : 6 ≤ mid.length := by
        rw [List.length_take] at hl6
        omega
      exact hc (by rw [List.take_append_of_le_length hlen]; exact hmid)
    unfold stripPythonTag
    rw [if_neg hc, if_neg hc2]

/-- `dropWhile` stops at a backtick, so it commutes with appending a
backtick-headed remainder. -/
theorem dropWhile_append_tick (a r : List Char) :
    (a ++ tick :: r).dropWhile pyIsSpace = a.dropWhile pyIsSpace ++ tick :: r := by
  induction a with
  | nil => simp [List.dropWhile_cons, pyIsSpace_tick]
  | cons c cs ih =>
    simp only [List.cons_append, List.dropWhile_cons]
    cases hp : pyIsSpace c <;> simp [hp, ih]

/-- No backtick appears after the tag strip if none appeared before. -/
theorem tick_notMem_stripPythonTag (l : List Char) (h : tick ∉ l) :
    tick ∉ stripPythonTag l := by
  unfold stripPythonTag
  split
  · exact fun hm => h (List.drop_subset 6 l hm)
  · exact h

/-- No backtick appears after `dropWhile` if none appeared before. -/
theorem tick_notMem_dropWhile (l : List Char) (h : tick ∉ l) :
    tick ∉ l.dropWhile pyIsSpace :=
  fun hm => h ((List.dropWhile_sublist pyIsSpace).subset hm)

/-- A string with no backtick admits no fenced-pair decomposition. -/
theorem tick_no_fence_decomp (s : String) (h : tick ∉ s.data) :
    ∀ a b c : String, s ≠ a ++ "```" ++ b ++ "```" ++ c := by
  intro a b c heq
  apply h
  rw [heq]
  simp [strData_append, fence_data, fencePat]
  exact Or.inr (Or.inl (by decide))

/-- Claim C4, counterexample: the text `` ```\nhi\n``` `` contains exactly one
(untagged) fenced block with interior `"\nhi\n"`, but the extractor returns
`"hi\n"`: the `\s*` in the pattern strips the interior's leading whitespace,
so the returned text is not the exact interior. -/
theorem C4_counterexample :
    ∃ g, _extract_code_block ("```" ++ "\nhi\n" ++ "```") = Except.ok g ∧ g ≠ "\nhi\n" :=
  ⟨"hi\n", rfl, by decide⟩

/-- The data of a packed character list. -/
theorem mk_data (l : List Char) : (String.mk l).data = l := rfl

/-- Claim C4, amended: on text with exactly one fenced block (no backtick
outside the two fences), the extractor returns the interior with an optional
leading `python` tag (ASCII case-insensitively) and any immediately following
whitespace removed, the remainder — internal and trailing whitespace included
— preserved exactly; and on text admitting no fenced-pair decomposition it
fails with the extraction error. -/
theorem C4_amended :
    (∀ pre mid post : String, tick ∉ pre.data → tick ∉ mid.data → tick ∉ post.data →
      _extract_code_block (pre ++ "```" ++ mid ++ "```" ++ post) =
        Except.ok (String.mk ((stripPythonTag mid.data).dropWhile pyIsSpace))) ∧
    (∀ text : String, (∀ a b c : String, text ≠ a ++ "```" ++ b ++ "```" ++ c) →
      _extract_code_block text = Except.error "LLM did not return a Python code block.") := by
  constructor
  · intro pre mid post hp hm hpo
    unfold _extract_code_block extractCodeBlockL
    have hdata : (pre ++ "```" ++ mid ++ "```" ++ post).data =
        pre.data ++ (fencePat ++ (mid.data ++ (fencePat ++ post.data))) := by
      rw [strData_append, strData_append, strData_append, strData_append, fence_data]
      simp only [List.append_assoc]
    rw [hdata]
    simp only [splitFirst_fence pre.data (mid.data ++ (fencePat ++ post.data)) hp]
    rw [show (fencePat ++ post.data : List Char) = tick :: tick :: tick :: post.data from rfl,
      stripPythonTag_append mid.data (tick :: tick :: post.data),
      dropWhile_append_tick (stripPythonTag mid.data) (tick :: tick :: post.data),
      show (tick :: tick :: tick :: post.data : List Char) = fencePat ++ post.data from rfl]
    simp only [splitFirst_fence ((stripPythonTag mid.data).dropWhile pyIsSpace) post.data
      (tick_notMem_dropWhile _ (tick_notMem_stripPythonTag _ hm))]
    rfl
  · intro text hno
    unfold _extract_code_block extractCodeBlockL
    cases h1 : splitFirst fencePat text.data with
    | none => rfl
    | some ar =>
      obtain ⟨a, r⟩ := ar
      cases h2 : splitFirst fencePat ((stripPythonTag r).dropWhile pyIsSpace) with
      | none => simp [h2, Except.map]
      | some gb =>
        obtain ⟨g, b⟩ := gb
        exfalso
        have e1 : text.data = a ++ fencePat ++ r := splitFirst_fence_some _ a r h1
        obtain ⟨t, e2⟩ := stripPythonTag_suffix r
        have e3 : stripPythonTag r =
            (stripPythonTag r).takeWhile pyIsSpace ++ (stripPythonTag r).dropWhile pyIsSpace :=
          (List.takeWhile_append_dropWhile pyIsSpace (stripPythonTag r)).symm
        have e4 : (stripPythonTag r).dropWhile pyIsSpace = g ++ fencePat ++ b :=
          splitFirst_fence_some _ g b h2
        refine hno (String.mk a)
          (String.mk (t ++ ((stripPythonTag r).takeWhile pyIsSpace ++ g))) (String.mk b)
          (str_ext _ _ ?_)
        conv_lhs => rw [e1, e2, e3, e4]
        simp only [strData_append, mk_data, ← fence_data, List.append_assoc]

/-- Witness for `C4_amended`: a tagged block with surrounding prose, and a
fence-free text. -/
theorem C4_witness :
    _extract_code_block ("Intro: " ++ "```" ++ "python\nx=1\n" ++ "```" ++ " done") =
      Except.ok (String.mk ((stripPythonTag ("python\nx=1\n").data).dropWhile pyIsSpace)) ∧
    _extract_code_block "hello" = Except.error "LLM did not return a Python code block." :=
  ⟨C4_amended.1 "Intro: " "python\nx=1\n" " done" (by decide) (by decide) (by decide),
    C4_amended.2 "hello" (tick_no_fence_decomp "hello" (by decide))⟩
